import Mathlib

/-!
Shallow embedding of the nasweb repository (system_info.py and
start_server_venv.py) together with theorems settling the frozen claims
about its specification.

Conventions of the embedding:
* Python floats are modelled as rationals (ℚ).  `round(x, n)` is modelled by
  `roundTo n x` below, rounding half to even exactly as Python does on the
  exact value (float representation error is outside the model; no quantity
  in any claim sits near a tie).
* A Python call that may raise is modelled by an `Option`/`Except` input:
  `none`/`Except.error` is the outcome "the call raised".  Code that
  catches the exception pattern-matches on it; code without a handler
  propagates the error.
* OS-level sensor state (psutil results, WMI results, directory contents,
  child-process behaviour) is passed in explicitly through an environment
  record, one field per distinct sensor query the code performs.
-/

namespace NasWeb

/-- Python `round` to an integer: nearest integer, ties to even. -/
def pyRoundInt (x : ℚ) : ℤ :=
  if x - (x.floor : ℚ) < 1 / 2 then x.floor
  else if (1 : ℚ) / 2 < x - (x.floor : ℚ) then x.floor + 1
  else if x.floor % 2 = 0 then x.floor else x.floor + 1

/-- `round(x, p)` from Python: round to `p` decimal places. -/
def roundTo (p : ℕ) (x : ℚ) : ℚ := ((pyRoundInt (x * 10 ^ p) : ℤ) : ℚ) / 10 ^ p

/-- `bytes_to_gb` (system_info.py:34-36): bytes to GB, two decimals. -/
def bytes_to_gb (b : ℚ) : ℚ := roundTo 2 (b / 2 ^ 30)

/-- Python `max` over a nonempty list, `none` on the empty list. -/
def listMax : List ℚ → Option ℚ
  | [] => none
  | x :: xs => some (xs.foldl max x)

-- ======================= memory =======================

/-- The `memory` record produced by `get_memory_usage`. -/
structure MemInfo where
  used_gb : ℚ
  total_gb : ℚ
deriving DecidableEq

/-- `get_memory_usage` (system_info.py:116-125).  `vm` is the outcome of
`psutil.virtual_memory()`: `some (total, available)` on success, `none`
when the call raised (the `except` branch returns zeros). -/
def get_memory_usage (vm : Option (ℤ × ℤ)) : MemInfo :=
  match vm with
  | some (total, available) =>
      { used_gb := bytes_to_gb ((total - available : ℤ) : ℚ)
        total_gb := bytes_to_gb (total : ℚ) }
  | none => { used_gb := 0, total_gb := 0 }

-- ======================= network rate =======================

/-- The rate record produced by `get_network_rate`. -/
structure NetRate where
  up_mbps : ℚ
  down_mbps : ℚ
deriving DecidableEq

/-- `get_network_rate` (system_info.py:301-314).  `counters` holds the two
`psutil.net_io_counters()` readings `((sent1, recv1), (sent2, recv2))`;
`none` means one of the calls raised.  A zero sampling window raises
`ZeroDivisionError`, which the same `except` branch catches. -/
def get_network_rate (counters : Option ((ℤ × ℤ) × (ℤ × ℤ)))
    (sample_seconds : ℚ) : NetRate :=
  match counters with
  | none => { up_mbps := 0, down_mbps := 0 }
  | some ((sent1, recv1), (sent2, recv2)) =>
      if sample_seconds = 0 then { up_mbps := 0, down_mbps := 0 }
      else
        let up_bps := ((sent2 - sent1 : ℤ) : ℚ) * 8 / sample_seconds
        let down_bps := ((recv2 - recv1 : ℤ) : ℚ) * 8 / sample_seconds
        { up_mbps := roundTo 3 (up_bps / 1000000)
          down_mbps := roundTo 3 (down_bps / 1000000) }

-- ======================= CPU =======================

/-- A row of the WMI `root\OpenHardwareMonitor` `Sensor` table. -/
structure OhmSensor where
  sensorType : String
  name : String
  value : ℚ

/-- One entry of `psutil.disk_partitions(all=False)`. -/
structure Partition where
  device : String
  mountpoint : String
  fstype : String
deriving DecidableEq

/-- One `Win32_DiskDrive` row together with the logical-disk mount strings
(`DeviceID + "\\"`) that the code reaches through the two `associators`
calls before any exception; an exception inside the nested loops truncates
this list, which the environment therefore already reflects. -/
structure WinDisk where
  model : String
  size : ℕ
  mounts : List String

/-- Address family of one `psutil.net_if_addrs()` address entry. -/
inductive AddrFamily
  | inet
  | link
  | other
deriving DecidableEq

/-- One address entry of `psutil.net_if_addrs()`. -/
structure Addr where
  family : AddrFamily
  address : String

/-- One interface of `psutil.net_if_addrs()`: its name and address list. -/
structure IfaceAddrs where
  name : String
  addrs : List Addr

/-- The outcomes of every OS-level sensor query the program performs.
`none` / `Except.error` means the corresponding call raised. -/
structure Env where
  system : String
  osRelease : String
  osVersion : String
  cpuPercent : Option ℚ
  sensorsTemps : Option (List (String × List (Option ℚ)))
  thermalZones : Option (List (Option ℤ))
  wmiAvail : Bool
  msacpiTemps : Option (List ℚ)
  ohmSensors : Option (List OhmSensor)
  virtualMemory : Option (ℤ × ℤ)
  diskPartitions : Except Unit (List Partition)
  diskUsage : String → Option (ℕ × ℕ)
  winDisks : Option (List WinDisk)
  netIfAddrs : Except Unit (List IfaceAddrs)
  netIoCounters : Option ((ℤ × ℤ) × (ℤ × ℤ))

/-- `get_cpu_usage` (system_info.py:41-46): failure degrades to `0.0`. -/
def get_cpu_usage (env : Env) : ℚ :=
  match env.cpuPercent with
  | some v => v
  | none => 0

/-- The priority list of recognized Linux sensor keys (system_info.py:57). -/
def tempKeys : List String := ["coretemp", "k10temp", "zenpower", "cpu-thermal"]

/-- Dictionary lookup `temps[key]` on the `sensors_temperatures` result. -/
def dictFind (temps : List (String × List (Option ℚ))) (key : String) :
    Option (List (Option ℚ)) :=
  (temps.find? (fun kv => kv.1 == key)).map (fun kv => kv.2)

/-- The `for key in (...)` loop of system_info.py:57-61: the first recognized
key whose entry list is nonempty and has a non-`None` current value yields
the maximum of those values; otherwise the loop falls through. -/
def firstKeyTemp (temps : List (String × List (Option ℚ))) :
    List String → Option ℚ
  | [] => none
  | k :: ks =>
      match dictFind temps k with
      | some entries =>
          if entries.isEmpty then firstKeyTemp temps ks
          else
            match listMax (entries.filterMap id) with
            | some v => some v
            | none => firstKeyTemp temps ks
      | none => firstKeyTemp temps ks

/-- The `/sys/class/thermal` fallback (system_info.py:63-81): every readable
zone value, millidegrees scaled down, then the maximum (or `none`). -/
def thermalZoneTemp (zones : List (Option ℤ)) : Option ℚ :=
  listMax (zones.filterMap (fun o =>
    o.map (fun v => if 1000 < v then (v : ℚ) / 1000 else (v : ℚ))))

/-- Lower-case a string, as Python `str.lower` on the ASCII names used here. -/
def lowerStr (s : String) : String := String.mk (s.toList.map Char.toLower)

/-- `'cpu' in sensor.Name.lower()` (system_info.py:105). -/
def hasCpuSub (s : String) : Bool :=
  decide ("cpu".toList <:+: (lowerStr s).toList)

/-- The OpenHardwareMonitor loop (system_info.py:102-108): the first sensor
of type `Temperature` whose name contains `cpu` yields its value. -/
def ohmCpuTemp (sensors : List OhmSensor) : Option ℚ :=
  (sensors.find? (fun s => s.sensorType == "Temperature" && hasCpuSub s.name)).map
    (fun s => s.value)

/-- The second Windows attempt (system_info.py:101-108), guarded by its own
`try`: an exception yields `none`. -/
def ohmBranch (env : Env) : Option ℚ :=
  match env.ohmSensors with
  | none => none
  | some sensors => ohmCpuTemp sensors

/-- `get_cpu_temperature` (system_info.py:49-111).  On Linux an exception in
`sensors_temperatures` is caught and gives `None` (skipping the thermal-zone
fallback, which sits inside the same `try`); on Windows the MSAcpi values
are in tenths of kelvin. -/
def get_cpu_temperature (env : Env) : Option ℚ :=
  if env.system = "Linux" then
    match env.sensorsTemps with
    | none => none
    | some temps =>
        match firstKeyTemp temps tempKeys with
        | some v => some v
        | none =>
            match env.thermalZones with
            | none => none
            | some zones => thermalZoneTemp zones
  else if env.system = "Windows" ∧ env.wmiAvail = true then
    match env.msacpiTemps with
    | none => ohmBranch env
    | some readings =>
        match listMax (readings.map (fun t => t / 10 - 27315 / 100)) with
        | some v => some v
        | none => ohmBranch env
  else none

-- ======================= storage =======================

/-- One entry of the `disks` list. -/
structure DiskEntry where
  name : String
  used_gb : ℚ
  total_gb : ℚ
deriving DecidableEq

/-- The record returned by `get_storage_info`. -/
structure StorageInfo where
  disk_count : ℕ
  disks : List DiskEntry
deriving DecidableEq

/-- The pseudo-filesystem types skipped on Linux (system_info.py:201). -/
def specialFstypes : List String := ["tmpfs", "devtmpfs", "sysfs", "proc", "devpts"]

/-- The display-name convention of system_info.py:208-215. -/
def linuxDisplayName (mountpoint device : String) : String :=
  if mountpoint = "/" then "系统盘 (/)"
  else if mountpoint = "/vol1" then "/vol1 (应用存储)"
  else if mountpoint.startsWith "/vol" then mountpoint ++ " (存储卷)"
  else mountpoint ++ " (" ++ device ++ ")"

/-- The Linux partition loop (system_info.py:192-227).  `processed` is the
`processed_mountpoints` set; a mount point joins it only when its
`disk_usage` query succeeded and its entry was appended. -/
def linuxDisksGo (usage : String → Option (ℕ × ℕ)) :
    List Partition → List String → List DiskEntry
  | [], _ => []
  | p :: rest, processed =>
      if p.mountpoint ∈ processed then linuxDisksGo usage rest processed
      else if p.fstype ∈ specialFstypes then linuxDisksGo usage rest processed
      else
        match usage p.mountpoint with
        | some (used, total) =>
            { name := linuxDisplayName p.mountpoint p.device
              used_gb := bytes_to_gb (used : ℚ)
              total_gb := bytes_to_gb (total : ℚ) }
              :: linuxDisksGo usage rest (p.mountpoint :: processed)
        | none => linuxDisksGo usage rest processed

/-- Ghost companion of `linuxDisksGo`: the mount point that produced each
emitted entry, in emission order. -/
def linuxMountsGo (usage : String → Option (ℕ × ℕ)) :
    List Partition → List String → List String
  | [], _ => []
  | p :: rest, processed =>
      if p.mountpoint ∈ processed then linuxMountsGo usage rest processed
      else if p.fstype ∈ specialFstypes then linuxMountsGo usage rest processed
      else
        match usage p.mountpoint with
        | some _ => p.mountpoint :: linuxMountsGo usage rest (p.mountpoint :: processed)
        | none => linuxMountsGo usage rest processed

/-- The Linux branch of `get_storage_info` (system_info.py:188-229). -/
def get_storage_info_linux (parts : List Partition)
    (usage : String → Option (ℕ × ℕ)) : StorageInfo :=
  let disks := linuxDisksGo usage parts []
  { disk_count := disks.length, disks := disks }

/-- `used_b` accumulation of the Windows branch (system_info.py:237-248):
per-mount `disk_usage` failures are skipped. -/
def winUsedBytes (usage : String → Option (ℕ × ℕ)) (mounts : List String) : ℕ :=
  mounts.foldl (fun acc m =>
    match usage m with
    | some (used, _) => acc + used
    | none => acc) 0

/-- The Windows branch of `get_storage_info` (system_info.py:231-257). -/
def get_storage_info_windows (wdisks : List WinDisk)
    (usage : String → Option (ℕ × ℕ)) : StorageInfo :=
  let entries := wdisks.map (fun d =>
    { name := d.model
      used_gb := bytes_to_gb ((winUsedBytes usage d.mounts : ℕ) : ℚ)
      total_gb := bytes_to_gb ((d.size : ℕ) : ℚ) })
  { disk_count := entries.length, disks := entries }

/-- The fallback loop (system_info.py:260-274).  Note that `seen.add` runs
before the `disk_usage` query, so a failed mount point is still marked. -/
def fallbackDisksGo (usage : String → Option (ℕ × ℕ)) :
    List Partition → List String → List DiskEntry
  | [], _ => []
  | p :: rest, seen =>
      if p.mountpoint ∈ seen then fallbackDisksGo usage rest seen
      else
        match usage p.mountpoint with
        | some (used, total) =>
            { name := p.device
              used_gb := bytes_to_gb (used : ℚ)
              total_gb := bytes_to_gb (total : ℚ) }
              :: fallbackDisksGo usage rest (p.mountpoint :: seen)
        | none => fallbackDisksGo usage rest (p.mountpoint :: seen)

/-- Ghost companion of `fallbackDisksGo`: the mount points that produced
entries. -/
def fallbackMountsGo (usage : String → Option (ℕ × ℕ)) :
    List Partition → List String → List String
  | [], _ => []
  | p :: rest, seen =>
      if p.mountpoint ∈ seen then fallbackMountsGo usage rest seen
      else
        match usage p.mountpoint with
        | some _ => p.mountpoint :: fallbackMountsGo usage rest (p.mountpoint :: seen)
        | none => fallbackMountsGo usage rest (p.mountpoint :: seen)

/-- The fallback tail of `get_storage_info` (system_info.py:259-277); it
re-reads the partition table, so its failure propagates. -/
def get_storage_info_fallback (env : Env) : Except Unit StorageInfo :=
  match env.diskPartitions with
  | Except.error e => Except.error e
  | Except.ok parts =>
      let mounts := fallbackDisksGo env.diskUsage parts []
      Except.ok { disk_count := mounts.length, disks := mounts }

/-- `get_storage_info` (system_info.py:180-277).  The Linux branch reads the
partition table with no handler, so that failure propagates; a failure of
the whole WMI query on Windows falls through to the fallback (whose output
overwrites any partial `disks` list, as the code reassigns it). -/
def get_storage_info (env : Env) : Except Unit StorageInfo :=
  if env.system = "Linux" then
    match env.diskPartitions with
    | Except.error e => Except.error e
    | Except.ok parts => Except.ok (get_storage_info_linux parts env.diskUsage)
  else if env.system = "Windows" ∧ env.wmiAvail = true then
    match env.winDisks with
    | some wdisks => Except.ok (get_storage_info_windows wdisks env.diskUsage)
    | none => get_storage_info_fallback env
  else get_storage_info_fallback env

-- ======================= network interfaces =======================

/-- `get_ip_interfaces` (system_info.py:282-298).  The function has no
exception handler, so a failure of `psutil.net_if_addrs()` propagates.
For each interface not named `br-…`, each `AF_INET` address is kept
(`AF_LINK` entries are skipped, as is every other family). -/
def get_ip_interfaces (env : Env) : Except Unit (List (String × String)) :=
  match env.netIfAddrs with
  | Except.error e => Except.error e
  | Except.ok ifaces =>
      Except.ok ((ifaces.map (fun i =>
        if i.name.startsWith "br-" then []
        else i.addrs.filterMap (fun a =>
          match a.family with
          | AddrFamily.inet => some (i.name, a.address)
          | _ => none))).flatten)

-- ======================= aggregation =======================

/-- The `cpu` sub-record of the snapshot. -/
structure CpuInfo where
  usage_percent : ℚ
  temperature_c : Option ℚ
deriving DecidableEq

/-- The `network` sub-record of the snapshot; `interfaces` holds the
`(name, ip)` pairs of `get_ip_interfaces`. -/
structure NetworkInfo where
  interfaces : List (String × String)
  up_mbps : ℚ
  down_mbps : ℚ
deriving DecidableEq

/-- The dictionary built by `collect_system_info` (system_info.py:329-357). -/
structure Snapshot where
  os : String
  os_release : String
  os_version : String
  debian_kernel_6_12_18_trim : Bool
  cpu : CpuInfo
  memory : MemInfo
  storage : StorageInfo
  network : NetworkInfo
deriving DecidableEq

/-- `is_debian_kernel_special` (system_info.py:321-326). -/
def is_debian_kernel_special (env : Env) : Bool :=
  env.system == "Linux" && env.osRelease.trim == "6.12.18-trim"

/-- `collect_system_info` (system_info.py:329-357).  The storage collector
and the interface enumeration are the two sub-collectors whose failures are
not caught anywhere, so they propagate; everything else degrades to its
default inside its own collector. -/
def collect_system_info (env : Env) : Except Unit Snapshot :=
  match get_storage_info env with
  | Except.error e => Except.error e
  | Except.ok storage =>
      match get_ip_interfaces env with
      | Except.error e => Except.error e
      | Except.ok pairs =>
          let rate := get_network_rate env.netIoCounters 1
          Except.ok
            { os := env.system
              os_release := env.osRelease
              os_version := env.osVersion
              debian_kernel_6_12_18_trim := is_debian_kernel_special env
              cpu := { usage_percent := get_cpu_usage env
                       temperature_c := get_cpu_temperature env }
              memory := get_memory_usage env.virtualMemory
              storage := storage
              network := { interfaces := pairs
                           up_mbps := rate.up_mbps
                           down_mbps := rate.down_mbps } }

-- ======================= image files =======================

/-- One entry of `image_dir.iterdir()`. -/
structure DirEntry where
  name : String
  isFile : Bool
deriving DecidableEq

/-- The state of the scanned `image` directory: a raised exception, an
absent directory, or a listing. -/
inductive ImageDirState
  | readError (msg : String)
  | missing
  | present (entries : List DirEntry)

/-- The record returned by `get_image_files`. -/
structure ImageListing where
  files : List String
  count : ℕ
  directory : String
  error : Option String
deriving DecidableEq

/-- The extension set of system_info.py:380. -/
def image_extensions : List String := [".gif", ".jpg", ".jpeg", ".png", ".bmp", ".webp"]

/-- `pathlib.PurePath.suffix`: the final component from its last dot,
empty when the dot is leading, trailing or absent. -/
def pySuffix (name : String) : String :=
  let cs := name.toList
  match cs.reverse.indexOf? '.' with
  | none => ""
  | some j =>
      let i := cs.length - 1 - j
      if 0 < i ∧ i < cs.length - 1 then String.mk (cs.drop i) else ""

/-- The filter of system_info.py:386: a regular file whose lower-cased
suffix is a recognized image extension. -/
def isImageFile (e : DirEntry) : Bool :=
  e.isFile && image_extensions.contains (lowerStr (pySuffix e.name))

/-- Python string comparison on code-point lists: lexicographic order. -/
def pyStrLeList : List Char → List Char → Bool
  | [], _ => true
  | _ :: _, [] => false
  | a :: as, b :: bs =>
      if a.toNat < b.toNat then true
      else if b.toNat < a.toNat then false
      else pyStrLeList as bs

/-- Python `<=` on strings: lexicographic by Unicode code points. -/
def pyStrLe (a b : String) : Bool := pyStrLeList a.toList b.toList

/-- Python `list.sort()` on strings: stable lexicographic sort. -/
def sortStrings (l : List String) : List String :=
  l.insertionSort (fun a b => pyStrLe a b = true)

/-- `get_image_files` (system_info.py:368-404).  `dirPath` is `str(image_dir)`;
any exception during the scan lands in the `except` branch, which reports
the message with empty `files`, zero `count` and empty `directory`. -/
def get_image_files (dirPath : String) (dir : ImageDirState) : ImageListing :=
  match dir with
  | ImageDirState.readError msg =>
      { files := [], count := 0, directory := "", error := some msg }
  | ImageDirState.missing =>
      { files := [], count := 0, directory := dirPath, error := none }
  | ImageDirState.present entries =>
      let files := sortStrings ((entries.filter isImageFile).map (fun e => e.name))
      { files := files, count := files.length, directory := dirPath, error := none }

-- ======================= supervisor (start_server_venv.py) =======================

/-- The state of one child process together with its `subprocess.Popen`
handle.  `alive` is the OS-level liveness, `rc` is the handle's cached
`returncode` (set only once the handle has observed the death), and
`respondsToTerm` says whether the process exits within the five-second
`wait` window after `SIGTERM`. -/
structure Child where
  alive : Bool
  respondsToTerm : Bool
  rc : Option ℤ
deriving DecidableEq

/-- `Popen.poll()`: reap a dead process, caching its return code. -/
def pollChild (c : Child) : Child :=
  if c.alive then c else { c with rc := some (c.rc.getD 0) }

/-- `Popen.send_signal` (hence `terminate`/`kill`): CPython first polls and
then skips signalling a process it knows has already died.  The returned
flag says whether a signal was actually delivered. -/
def sendSignalChild (isKill : Bool) (c : Child) : Child × Bool :=
  let c1 := pollChild c
  if c1.rc.isSome then (c1, false)
  else if isKill then ({ c1 with alive := false }, true)
  else (if c1.respondsToTerm then { c1 with alive := false } else c1, true)

/-- `Popen.wait(timeout=5)`: reap if the process is (or becomes) dead within
the window, else time out (the returned flag is the `TimeoutExpired`). -/
def waitChild (c : Child) : Child × Bool :=
  if c.alive then (c, true)
  else ({ c with rc := some (c.rc.getD 0) }, false)

/-- One `try: terminate; wait(5) / except TimeoutExpired: kill` block of
`cleanup` (start_server_venv.py:181-201), counting delivered signals.
The catch-all `except Exception` of the source makes the block total. -/
def stopChild (c : Child) : Child × ℕ :=
  let s1 := sendSignalChild false c
  let w := waitChild s1.1
  if w.2 then
    let s2 := sendSignalChild true w.1
    (s2.1, (if s1.2 then 1 else 0) + (if s2.2 then 1 else 0))
  else (w.1, if s1.2 then 1 else 0)

/-- The two optional child handles of `VenvServerManager`. -/
structure ManagerState where
  api_process : Option Child
  http_process : Option Child
deriving DecidableEq

/-- `VenvServerManager.cleanup` (start_server_venv.py:177-203): stop each
existing child, returning the new state and the number of signals delivered
to the API child and to the HTTP child. -/
def cleanup (s : ManagerState) : ManagerState × ℕ × ℕ :=
  let api := match s.api_process with
    | none => (none, 0)
    | some c => let r := stopChild c; (some r.1, r.2)
  let http := match s.http_process with
    | none => (none, 0)
    | some c => let r := stopChild c; (some r.1, r.2)
  ({ api_process := api.1, http_process := http.1 }, api.2, http.2)

/-- Outcome of the preparation steps of `run` (start_server_venv.py:222-230):
everything succeeded, one of the script's own checks called `sys.exit(1)`,
or an unanticipated exception was raised (landing in `except Exception`). -/
inductive PrepOutcome
  | ok
  | exitFail
  | raiseExc
deriving DecidableEq

/-- What ends the monitoring phase (start_server_venv.py:162-175, 217-219):
a termination signal, or one of the two children dying. -/
inductive MonitorOutcome
  | interrupted
  | apiDied
  | httpDied
deriving DecidableEq

/-- The outcomes of one supervisor run. -/
structure SupEnv where
  prep : PrepOutcome
  apiDiesInGrace : Bool
  httpDiesInGrace : Bool
  apiResponds : Bool
  httpResponds : Bool
  monitor : MonitorOutcome
deriving DecidableEq

/-- A freshly spawned `Popen` handle. -/
def spawnedChild (diesInGrace responds : Bool) : Child :=
  { alive := !diesInGrace, respondsToTerm := responds, rc := none }

/-- `VenvServerManager.run` (start_server_venv.py:211-252), returning the
process exit code and how many times `cleanup` ran.
* a preparation `sys.exit(1)` propagates through `finally` (one cleanup,
  exit 1);
* an unanticipated preparation exception is caught by `except Exception`,
  `run` returns normally after the `finally` cleanup, and the process
  exits 0;
* a failed health check runs `cleanup()` then `sys.exit(1)`, whose
  `SystemExit` triggers the `finally` cleanup again (exit 1);
* a signal runs the handler's cleanup and `sys.exit(0)`, then the `finally`
  cleanup (exit 0);
* a child death breaks the monitor loop, after which no exception is
  pending: the `finally` cleanup runs once and `run` returns normally,
  so the process exits 0. -/
def run (env : SupEnv) : ℕ × ℕ :=
  match env.prep with
  | PrepOutcome.exitFail => (1, 1)
  | PrepOutcome.raiseExc => (0, 1)
  | PrepOutcome.ok =>
      if env.apiDiesInGrace || env.httpDiesInGrace then (1, 2)
      else
        match env.monitor with
        | MonitorOutcome.interrupted => (0, 2)
        | MonitorOutcome.apiDied => (0, 1)
        | MonitorOutcome.httpDied => (0, 1)

-- ======================= helper lemmas =======================

lemma ratFloor_eq_intFloor (q : ℚ) : q.floor = ⌊q⌋ :=
  (Rat.floor_def' q).trans Rat.floor_def.symm

lemma pyRoundInt_nonneg (x : ℚ) (hx : 0 ≤ x) : 0 ≤ pyRoundInt x := by
  have hf : 0 ≤ x.floor := by
    rw [ratFloor_eq_intFloor]
    exact Int.floor_nonneg.mpr hx
  unfold pyRoundInt
  split_ifs <;> omega

lemma roundTo_nonneg (p : ℕ) (x : ℚ) (hx : 0 ≤ x) : 0 ≤ roundTo p x := by
  unfold roundTo
  apply div_nonneg _ (by positivity)
  exact_mod_cast pyRoundInt_nonneg _ (mul_nonneg hx (by positivity))

lemma pyRoundInt_intCast (n : ℤ) : pyRoundInt ((n : ℤ) : ℚ) = n := by
  unfold pyRoundInt
  rw [ratFloor_eq_intFloor, Int.floor_intCast]
  norm_num

lemma roundTo_ofInt (p : ℕ) (n : ℤ) : roundTo p ((n : ℤ) : ℚ) = (n : ℚ) := by
  unfold roundTo
  have h : (n : ℚ) * 10 ^ p = ((n * 10 ^ p : ℤ) : ℚ) := by push_cast; ring
  rw [h, pyRoundInt_intCast]
  push_cast
  exact mul_div_cancel_right₀ _ (by positivity)

lemma pyStrLeList_total :
    ∀ as bs : List Char, pyStrLeList as bs = true ∨ pyStrLeList bs as = true := by
  intro as
  induction as with
  | nil => intro bs; left; rfl
  | cons a as ih =>
      intro bs
      cases bs with
      | nil => right; rfl
      | cons b bs =>
          simp only [pyStrLeList]
          rcases Nat.lt_trichotomy a.toNat b.toNat with h | h | h
          · left; simp [h]
          · have h1 : ¬ a.toNat < b.toNat := by omega
            have h2 : ¬ b.toNat < a.toNat := by omega
            simpa [h1, h2] using ih bs
          · right; simp [h]

lemma pyStrLeList_trans :
    ∀ as bs cs : List Char, pyStrLeList as bs = true → pyStrLeList bs cs = true →
      pyStrLeList as cs = true := by
  intro as
  induction as with
  | nil => intro bs cs h1 h2; rfl
  | cons a as ih =>
      intro bs cs h1 h2
      cases bs with
      | nil => simp [pyStrLeList] at h1
      | cons b bs =>
          cases cs with
          | nil => simp [pyStrLeList] at h2
          | cons c cs =>
              simp only [pyStrLeList] at h1 h2 ⊢
              rcases Nat.lt_trichotomy a.toNat b.toNat with hab | hab | hab
              · rcases Nat.lt_trichotomy b.toNat c.toNat with hbc | hbc | hbc
                · simp [show a.toNat < c.toNat by omega]
                · simp [show a.toNat < c.toNat by omega]
                · simp [show ¬ b.toNat < c.toNat by omega, hbc] at h2
              · rcases Nat.lt_trichotomy b.toNat c.toNat with hbc | hbc | hbc
                · simp [show a.toNat < c.toNat by omega]
                · rw [if_neg (show ¬ a.toNat < b.toNat by omega),
                    if_neg (show ¬ b.toNat < a.toNat by omega)] at h1
                  rw [if_neg (show ¬ b.toNat < c.toNat by omega),
                    if_neg (show ¬ c.toNat < b.toNat by omega)] at h2
                  rw [if_neg (show ¬ a.toNat < c.toNat by omega),
                    if_neg (show ¬ c.toNat < a.toNat by omega)]
                  exact ih bs cs h1 h2
                · simp [show ¬ b.toNat < c.toNat by omega, hbc] at h2
              · simp [show ¬ a.toNat < b.toNat by omega, hab] at h1

instance : IsTotal String (fun a b => pyStrLe a b = true) :=
  ⟨fun a b => pyStrLeList_total a.toList b.toList⟩

instance : IsTrans String (fun a b => pyStrLe a b = true) :=
  ⟨fun a b c => pyStrLeList_trans a.toList b.toList c.toList⟩

-- ======================= claim theorems =======================

/-- C2: for every successful virtual-memory reading with total bytes `T` and
available bytes `A`, `get_memory_usage` returns
`used_gb = round((T - A) / 2^30, 2)` and `total_gb = round(T / 2^30, 2)`;
with `T` = 16 GiB and `A` = 8 GiB this gives `used_gb = 8.00`; on failure it
returns zeros. -/
theorem memory_rounding_spec :
    (∀ T A : ℤ, get_memory_usage (some (T, A)) =
      { used_gb := roundTo 2 (((T : ℚ) - A) / 2 ^ 30)
        total_gb := roundTo 2 ((T : ℚ) / 2 ^ 30) })
    ∧ get_memory_usage none = { used_gb := 0, total_gb := 0 }
    ∧ get_memory_usage (some (16 * 2 ^ 30, 8 * 2 ^ 30)) =
        { used_gb := 8, total_gb := 16 } := by
  refine ⟨fun T A => ?_, rfl, ?_⟩
  · have h : ((T - A : ℤ) : ℚ) = (T : ℚ) - A := by push_cast; ring
    simp only [get_memory_usage, bytes_to_gb, h]
  · simp only [get_memory_usage, bytes_to_gb, MemInfo.mk.injEq]
    constructor
    · have h : ((16 * 2 ^ 30 - 8 * 2 ^ 30 : ℤ) : ℚ) / 2 ^ 30 = ((8 : ℤ) : ℚ) := by
        norm_num
      rw [h, roundTo_ofInt]
      norm_num
    · have h : ((16 * 2 ^ 30 : ℤ) : ℚ) / 2 ^ 30 = ((16 : ℤ) : ℚ) := by norm_num
      rw [h, roundTo_ofInt]
      norm_num

/-- C4: for every pair of byte-counter readings and nonzero window `w`,
`get_network_rate` returns `round((Δsent * 8) / w / 10^6, 3)` and the same
for received; a delta of 1,000,000 bytes sent over a 1-second window gives
`up_mbps = 8.0`; a failed reading gives zeros. -/
theorem network_rate_formula :
    (∀ (s1 r1 s2 r2 : ℤ) (w : ℚ), w ≠ 0 →
      get_network_rate (some ((s1, r1), (s2, r2))) w =
        { up_mbps := roundTo 3 (((s2 : ℚ) - s1) * 8 / w / 1000000)
          down_mbps := roundTo 3 (((r2 : ℚ) - r1) * 8 / w / 1000000) })
    ∧ get_network_rate (some ((0, 0), (1000000, 0))) 1 =
        { up_mbps := 8, down_mbps := 0 }
    ∧ (∀ w : ℚ, get_network_rate none w = { up_mbps := 0, down_mbps := 0 }) := by
  refine ⟨fun s1 r1 s2 r2 w hw => ?_, ?_, fun w => rfl⟩
  · simp only [get_network_rate, if_neg hw, NetRate.mk.injEq]
    constructor <;> norm_cast
  · have h1 : (((1000000 : ℤ) - 0 : ℤ) : ℚ) * 8 / 1 / 1000000 = ((8 : ℤ) : ℚ) := by
      norm_num
    have h2 : (((0 : ℤ) - 0 : ℤ) : ℚ) * 8 / 1 / 1000000 = ((0 : ℤ) : ℚ) := by
      norm_num
    simp only [get_network_rate, if_neg (by norm_num : (1 : ℚ) ≠ 0), h1, h2,
      roundTo_ofInt, NetRate.mk.injEq]
    norm_num

/-- Witness for `network_rate_formula` at the concrete input of the claim. -/
theorem network_rate_formula_witness :
    get_network_rate (some ((0, 0), (1000000, 0))) 1 =
      { up_mbps := roundTo 3 (((1000000 : ℚ) - 0) * 8 / 1 / 1000000)
        down_mbps := roundTo 3 (((0 : ℚ) - 0) * 8 / 1 / 1000000) } :=
  network_rate_formula.1 0 0 1000000 0 1 (by norm_num)

/-- C9 counterexample: when the second counter reading is smaller than the
first (a counter reset), the returned rate is negative, so `up_mbps` is not
non-negative for every pair of readings. -/
theorem network_rate_negative :
    (get_network_rate (some ((1000000, 0), (0, 0))) 1).up_mbps < 0 := by
  have h1 : (((0 : ℤ) - 1000000 : ℤ) : ℚ) * 8 / 1 / 1000000 = ((-8 : ℤ) : ℚ) := by
    norm_num
  simp only [get_network_rate, if_neg (by norm_num : (1 : ℚ) ≠ 0), h1, roundTo_ofInt]
  norm_num

/-- C9 amended: `up_mbps` and `down_mbps` are non-negative whenever the
window is positive and the second counter reading is at least the first
(byte counters are cumulative). -/
theorem network_rate_nonneg :
    ∀ (s1 r1 s2 r2 : ℤ) (w : ℚ), 0 < w → s1 ≤ s2 → r1 ≤ r2 →
      0 ≤ (get_network_rate (some ((s1, r1), (s2, r2))) w).up_mbps ∧
      0 ≤ (get_network_rate (some ((s1, r1), (s2, r2))) w).down_mbps := by
  intro s1 r1 s2 r2 w hw hs hr
  have hw0 : w ≠ 0 := ne_of_gt hw
  simp only [get_network_rate, if_neg hw0]
  constructor <;> apply roundTo_nonneg <;>
    apply div_nonneg _ (by norm_num) <;>
    apply div_nonneg _ (le_of_lt hw) <;>
    apply mul_nonneg _ (by norm_num)
  · have : ((s1 : ℚ)) ≤ ((s2 : ℚ)) := by exact_mod_cast hs
    push_cast
    linarith
  · have : ((r1 : ℚ)) ≤ ((r2 : ℚ)) := by exact_mod_cast hr
    push_cast
    linarith

/-- Witness for `network_rate_nonneg` at a concrete increasing pair. -/
theorem network_rate_nonneg_witness :
    0 ≤ (get_network_rate (some ((0, 0), (1000000, 0))) 1).up_mbps ∧
    0 ≤ (get_network_rate (some ((0, 0), (1000000, 0))) 1).down_mbps :=
  network_rate_nonneg 0 0 1000000 0 1 (by norm_num) (by norm_num) (by norm_num)

lemma linuxDisksGo_length (usage : String → Option (ℕ × ℕ)) :
    ∀ (parts : List Partition) (processed : List String),
      (linuxDisksGo usage parts processed).length =
        (linuxMountsGo usage parts processed).length := by
  intro parts
  induction parts with
  | nil => intro processed; rfl
  | cons p rest ih =>
      intro processed
      simp only [linuxDisksGo, linuxMountsGo]
      split_ifs with h1 h2
      · exact ih processed
      · exact ih processed
      · cases h : usage p.mountpoint with
        | none => simp [h, ih]
        | some ut =>
            obtain ⟨u, t⟩ := ut
            simp [h, ih]

lemma linuxMountsGo_not_mem (usage : String → Option (ℕ × ℕ)) :
    ∀ (parts : List Partition) (processed : List String) (m : String),
      m ∈ linuxMountsGo usage parts processed → m ∉ processed := by
  intro parts
  induction parts with
  | nil => intro processed m hm; simp [linuxMountsGo] at hm
  | cons p rest ih =>
      intro processed m hm
      simp only [linuxMountsGo] at hm
      split_ifs at hm with h1 h2
      · exact ih processed m hm
      · exact ih processed m hm
      · cases h : usage p.mountpoint with
        | none => rw [h] at hm; exact ih processed m hm
        | some ut =>
            rw [h] at hm
            rcases List.mem_cons.mp hm with rfl | hm2
            · exact h1
            · have h3 := ih (p.mountpoint :: processed) m hm2
              exact fun hmem => h3 (List.mem_cons_of_mem _ hmem)

lemma linuxMountsGo_nodup (usage : String → Option (ℕ × ℕ)) :
    ∀ (parts : List Partition) (processed : List String),
      (linuxMountsGo usage parts processed).Nodup := by
  intro parts
  induction parts with
  | nil => intro processed; simp [linuxMountsGo]
  | cons p rest ih =>
      intro processed
      simp only [linuxMountsGo]
      split_ifs with h1 h2
      · exact ih processed
      · exact ih processed
      · cases h : usage p.mountpoint with
        | none => exact ih processed
        | some ut =>
            refine List.nodup_cons.mpr ⟨?_, ih (p.mountpoint :: processed)⟩
            intro hmem
            exact linuxMountsGo_not_mem usage rest (p.mountpoint :: processed)
              p.mountpoint hmem (List.mem_cons_self _ _)

lemma fallbackDisksGo_length (usage : String → Option (ℕ × ℕ)) :
    ∀ (parts : List Partition) (seen : List String),
      (fallbackDisksGo usage parts seen).length =
        (fallbackMountsGo usage parts seen).length := by
  intro parts
  induction parts with
  | nil => intro seen; rfl
  | cons p rest ih =>
      intro seen
      simp only [fallbackDisksGo, fallbackMountsGo]
      split_ifs with h1
      · exact ih seen
      · cases h : usage p.mountpoint with
        | none => simp [h, ih]
        | some ut =>
            obtain ⟨u, t⟩ := ut
            simp [h, ih]

lemma fallbackMountsGo_not_mem (usage : String → Option (ℕ × ℕ)) :
    ∀ (parts : List Partition) (seen : List String) (m : String),
      m ∈ fallbackMountsGo usage parts seen → m ∉ seen := by
  intro parts
  induction parts with
  | nil => intro seen m hm; simp [fallbackMountsGo] at hm
  | cons p rest ih =>
      intro seen m hm
      simp only [fallbackMountsGo] at hm
      split_ifs at hm with h1
      · exact ih seen m hm
      · cases h : usage p.mountpoint with
        | none =>
            rw [h] at hm
            have h3 := ih (p.mountpoint :: seen) m hm
            exact fun hmem => h3 (List.mem_cons_of_mem _ hmem)
        | some ut =>
            rw [h] at hm
            rcases List.mem_cons.mp hm with rfl | hm2
            · exact h1
            · have h3 := ih (p.mountpoint :: seen) m hm2
              exact fun hmem => h3 (List.mem_cons_of_mem _ hmem)

lemma fallbackMountsGo_nodup (usage : String → Option (ℕ × ℕ)) :
    ∀ (parts : List Partition) (seen : List String),
      (fallbackMountsGo usage parts seen).Nodup := by
  intro parts
  induction parts with
  | nil => intro seen; simp [fallbackMountsGo]
  | cons p rest ih =>
      intro seen
      simp only [fallbackMountsGo]
      split_ifs with h1
      · exact ih seen
      · cases h : usage p.mountpoint with
        | none => exact ih (p.mountpoint :: seen)
        | some ut =>
            refine List.nodup_cons.mpr ⟨?_, ih (p.mountpoint :: seen)⟩
            intro hmem
            exact fallbackMountsGo_not_mem usage rest (p.mountpoint :: seen)
              p.mountpoint hmem (List.mem_cons_self _ _)

/-- C3: in the storage collector, each mount point yields at most one disk
entry.  `linuxMountsGo`/`fallbackMountsGo` list the mount point that
produced each emitted entry in order, so their `Nodup` together with the
length correspondence says no mount point appears twice in `disks`; and a
concrete partition table in which two partitions share a mount point
produces exactly one disk entry. -/
theorem storage_mount_dedup :
    (∀ (usage : String → Option (ℕ × ℕ)) (parts : List Partition),
        (linuxMountsGo usage parts []).Nodup
        ∧ (get_storage_info_linux parts usage).disks.length =
            (linuxMountsGo usage parts []).length
        ∧ (fallbackMountsGo usage parts []).Nodup
        ∧ (fallbackDisksGo usage parts []).length =
            (fallbackMountsGo usage parts []).length)
    ∧ (get_storage_info_linux
          [{ device := "/dev/sda1", mountpoint := "/data", fstype := "ext4" },
           { device := "/dev/sdb1", mountpoint := "/data", fstype := "ext4" }]
          (fun m => if m = "/data" then some (2 ^ 30, 2 ^ 31) else none)).disks.length
        = 1 := by
  constructor
  · intro usage parts
    exact ⟨linuxMountsGo_nodup usage parts [],
      linuxDisksGo_length usage parts [],
      fallbackMountsGo_nodup usage parts [],
      fallbackDisksGo_length usage parts []⟩
  · rfl

/-- The invariant of claim C10, per return path of `get_storage_info`. -/
def storageCountInvariant : Except Unit StorageInfo → Prop
  | Except.error _ => True
  | Except.ok r => r.disk_count = r.disks.length

/-- C10: in every return path of the storage collector (Linux branch,
Windows branch and the mount-point fallback, with any pattern of
disk-usage failures) the returned `disk_count` equals the length of the
returned `disks` list. -/
theorem disk_count_matches :
    ∀ env : Env, storageCountInvariant (get_storage_info env) := by
  intro env
  have hfb : storageCountInvariant (get_storage_info_fallback env) := by
    unfold get_storage_info_fallback
    cases env.diskPartitions with
    | error e => trivial
    | ok parts => exact rfl
  unfold get_storage_info
  split_ifs with h1 h2
  · cases env.diskPartitions with
    | error e => trivial
    | ok parts => exact rfl
  · cases env.winDisks with
    | none => exact hfb
    | some wdisks => exact rfl
  · exact hfb

/-- C5: on a successful scan the listing holds exactly the regular files
whose extension matches the image-extension set case-insensitively, in
lexicographic filename order, with `count` the length of `files`; the
files `b.png`, `A.JPG`, `c.txt` give `files = ["A.JPG", "b.png"]` and
`count = 2`; a failed directory read gives empty `files`, `count = 0` and
the message in `error`. -/
theorem image_listing_spec :
    (∀ (dirPath : String) (entries : List DirEntry),
        List.Sorted (fun a b => pyStrLe a b = true)
          (get_image_files dirPath (ImageDirState.present entries)).files
        ∧ (get_image_files dirPath (ImageDirState.present entries)).files.Perm
            ((entries.filter isImageFile).map (fun e => e.name))
        ∧ (get_image_files dirPath (ImageDirState.present entries)).count =
            (get_image_files dirPath (ImageDirState.present entries)).files.length)
    ∧ (∀ dirPath msg : String,
        get_image_files dirPath (ImageDirState.readError msg) =
          { files := [], count := 0, directory := "", error := some msg })
    ∧ get_image_files "image" (ImageDirState.present
          [{ name := "b.png", isFile := true }, { name := "A.JPG", isFile := true },
           { name := "c.txt", isFile := true }]) =
        { files := ["A.JPG", "b.png"], count := 2, directory := "image",
          error := none } := by
  refine ⟨fun dirPath entries => ⟨?_, ?_, rfl⟩, fun dirPath msg => rfl, ?_⟩
  · exact List.sorted_insertionSort _ _
  · exact List.perm_insertionSort _ _
  · decide

lemma stopChild_second (c : Child) : (stopChild (stopChild c).1).2 = 0 := by
  rcases c with ⟨a, r, rc⟩
  cases a <;> cases r <;> cases rc <;>
    simp [stopChild, sendSignalChild, pollChild, waitChild]

/-- C6: `cleanup` is idempotent.  After one `cleanup`, every child handle
either has a cached return code or its process is dead and unreaped, so a
second `cleanup` delivers no signal to either child (the guarded
`send_signal` is a no-op on a completed process and the immediate `wait`
raises nothing); in the model all shutdown-path errors are already caught
by the source's handlers, so `cleanup` is total. -/
theorem cleanup_idempotent :
    ∀ s : ManagerState, (cleanup (cleanup s).1).2 = (0, 0) := by
  intro s
  rcases s with ⟨api, http⟩
  cases api <;> cases http <;> simp [cleanup, stopChild_second]

/-- A run in which both servers start fine and the API child later dies. -/
def envChildDies : SupEnv :=
  { prep := PrepOutcome.ok, apiDiesInGrace := false, httpDiesInGrace := false,
    apiResponds := true, httpResponds := true, monitor := MonitorOutcome.apiDied }

/-- C7 counterexample: when a child dies after a successful startup the
monitor loop breaks, `cleanup` runs in the `finally` block, and `run`
returns normally — the process exits with code 0, not the non-zero code
the claim requires. -/
theorem run_exit_zero_on_child_death : run envChildDies = (0, 1) := rfl

/-- C7 amended: the supervisor exits 1 exactly on the startup failures its
own checks detect (a preparation `sys.exit(1)` or a failed health check);
an unanticipated preparation exception, a clean signal shutdown and a
post-start child death all exit 0, the latter after the `finally` cleanup
runs (so full cleanup is performed, but the exit code is 0, not non-zero). -/
theorem run_exit_codes :
    ∀ env : SupEnv,
      (env.prep = PrepOutcome.exitFail → run env = (1, 1))
      ∧ (env.prep = PrepOutcome.raiseExc → run env = (0, 1))
      ∧ (env.prep = PrepOutcome.ok → (env.apiDiesInGrace || env.httpDiesInGrace) = true →
          run env = (1, 2))
      ∧ (env.prep = PrepOutcome.ok → (env.apiDiesInGrace || env.httpDiesInGrace) = false →
          env.monitor = MonitorOutcome.interrupted → run env = (0, 2))
      ∧ (env.prep = PrepOutcome.ok → (env.apiDiesInGrace || env.httpDiesInGrace) = false →
          env.monitor ≠ MonitorOutcome.interrupted →
          (run env).1 = 0 ∧ 1 ≤ (run env).2) := by
  intro env
  rcases env with ⟨prep, ag, hg, ar, hr, mon⟩
  cases prep <;> cases ag <;> cases hg <;> cases mon <;> simp [run]

/-- Witness for `run_exit_codes` at the post-start child-death input. -/
theorem run_exit_codes_witness :
    (run envChildDies).1 = 0 ∧ 1 ≤ (run envChildDies).2 :=
  (run_exit_codes envChildDies).2.2.2.2 rfl rfl (by simp [envChildDies])

/-- A Linux environment whose temperature queries are the two parameters
and whose other sensors are inert. -/
def mkLinuxTempEnv (temps : Option (List (String × List (Option ℚ))))
    (zones : Option (List (Option ℤ))) : Env :=
  { system := "Linux", osRelease := "6", osVersion := "v", cpuPercent := some 1,
    sensorsTemps := temps, thermalZones := zones, wmiAvail := false,
    msacpiTemps := none, ohmSensors := none, virtualMemory := some (0, 0),
    diskPartitions := Except.ok [], diskUsage := fun _ => none, winDisks := none,
    netIfAddrs := Except.ok [], netIoCounters := some ((0, 0), (0, 0)) }

/-- Two recognized sensor groups, the larger reading in the later group. -/
def tempsTwoGroups : List (String × List (Option ℚ)) :=
  [("coretemp", [some 40]), ("k10temp", [some 90])]

/-- Written from the claim's words: the maximum reading across all
recognized sensor groups present. -/
def specMaxAcrossGroups (temps : List (String × List (Option ℚ))) : Option ℚ :=
  listMax ((tempKeys.filterMap (dictFind temps)).flatten.filterMap id)

/-- C8 counterexample: with `coretemp` reading 40 and `k10temp` reading 90
the code returns 40 (the first recognized group), not the maximum 90 across
all recognized groups. -/
theorem cpu_temp_not_max_across_groups :
    get_cpu_temperature (mkLinuxTempEnv (some tempsTwoGroups) (some [])) = some 40
    ∧ specMaxAcrossGroups tempsTwoGroups = some 90 := by
  constructor
  · rfl
  · show some (max (40 : ℚ) 90) = some 90
    rw [max_eq_right (by norm_num)]

/-- The non-null readings of one recognized sensor group: empty exactly
when the loop of system_info.py:57-61 skips the key (key absent, entry
list empty, or every `current` null). -/
def groupVals (temps : List (String × List (Option ℚ))) (k : String) : List ℚ :=
  match dictFind temps k with
  | some entries => entries.filterMap id
  | none => []

lemma listMax_eq_none {l : List ℚ} (h : listMax l = none) : l = [] := by
  cases l with
  | nil => rfl
  | cons x xs => simp [listMax] at h

lemma firstKeyTemp_skip (temps : List (String × List (Option ℚ)))
    (k : String) (ks : List String) (h : groupVals temps k = []) :
    firstKeyTemp temps (k :: ks) = firstKeyTemp temps ks := by
  simp only [firstKeyTemp]
  split
  · rename_i entries hd
    simp only [groupVals, hd] at h
    split_ifs with he
    · rfl
    · rw [h]; rfl
  · rfl

lemma firstKeyTemp_hit (temps : List (String × List (Option ℚ)))
    (k : String) (ks : List String) (h : groupVals temps k ≠ []) :
    firstKeyTemp temps (k :: ks) = listMax (groupVals temps k) := by
  cases hd : dictFind temps k with
  | none => exact absurd (by simp [groupVals, hd]) h
  | some entries =>
      cases entries with
      | nil => exact absurd (by simp [groupVals, hd]) h
      | cons e es =>
          have hfm : (e :: es).filterMap id ≠ [] := by
            intro hc
            exact h (by simp [groupVals, hd, hc])
          simp only [firstKeyTemp, hd, List.isEmpty_cons, Bool.false_eq_true,
            if_false]
          cases hl : listMax ((e :: es).filterMap id) with
          | none => exact absurd (listMax_eq_none hl) hfm
          | some w => simp [groupVals, hd, hl]

lemma firstKeyTemp_first_usable (temps : List (String × List (Option ℚ))) :
    ∀ (ks1 : List String) (k : String) (ks2 : List String),
      (∀ k1 ∈ ks1, groupVals temps k1 = []) → groupVals temps k ≠ [] →
      firstKeyTemp temps (ks1 ++ k :: ks2) = listMax (groupVals temps k) := by
  intro ks1
  induction ks1 with
  | nil => intro k ks2 hpref hk; exact firstKeyTemp_hit temps k ks2 hk
  | cons p ps ih =>
      intro k ks2 hpref hk
      rw [List.cons_append,
        firstKeyTemp_skip temps p (ps ++ k :: ks2) (hpref p (List.mem_cons_self _ _))]
      exact ih k ks2 (fun k1 h1 => hpref k1 (List.mem_cons_of_mem _ h1)) hk

lemma firstKeyTemp_all_empty (temps : List (String × List (Option ℚ))) :
    ∀ ks : List String, (∀ k ∈ ks, groupVals temps k = []) →
      firstKeyTemp temps ks = none := by
  intro ks
  induction ks with
  | nil => intro _; rfl
  | cons k ks ih =>
      intro hall
      rw [firstKeyTemp_skip temps k ks (hall k (List.mem_cons_self _ _))]
      exact ih (fun k1 h1 => hall k1 (List.mem_cons_of_mem _ h1))

/-- C8 amended: on Linux the collector returns the maximum of the FIRST
recognized sensor group, in the fixed priority order of `tempKeys`, that
has a non-null reading (pinned by quantifying over every split
`tempKeys = ks1 ++ k :: ks2` with all earlier keys unusable); only when no
recognized group has a reading does it fall back to the thermal-zone
maximum, and when that too is absent it returns `none` — absence, never a
zero substitute. -/
theorem cpu_temp_first_group :
    ∀ (temps : List (String × List (Option ℚ))) (zones : List (Option ℤ)),
      (∀ (ks1 : List String) (k : String) (ks2 : List String),
          tempKeys = ks1 ++ k :: ks2 →
          (∀ k1 ∈ ks1, groupVals temps k1 = []) →
          groupVals temps k ≠ [] →
          get_cpu_temperature (mkLinuxTempEnv (some temps) (some zones)) =
            listMax (groupVals temps k))
      ∧ ((∀ k ∈ tempKeys, groupVals temps k = []) →
          get_cpu_temperature (mkLinuxTempEnv (some temps) (some zones)) =
            thermalZoneTemp zones)
      ∧ ((∀ k ∈ tempKeys, groupVals temps k = []) → thermalZoneTemp zones = none →
          get_cpu_temperature (mkLinuxTempEnv (some temps) (some zones)) = none) := by
  intro temps zones
  have hred : get_cpu_temperature (mkLinuxTempEnv (some temps) (some zones)) =
      (match firstKeyTemp temps tempKeys with
       | some v => some v
       | none => thermalZoneTemp zones) := rfl
  refine ⟨fun ks1 k ks2 hsplit hpref hk => ?_, fun hall => ?_, fun hall hz => ?_⟩
  · have hfk : firstKeyTemp temps tempKeys = listMax (groupVals temps k) := by
      rw [hsplit]
      exact firstKeyTemp_first_usable temps ks1 k ks2 hpref hk
    rw [hred, hfk]
    cases hl : listMax (groupVals temps k) with
    | none => exact absurd (listMax_eq_none hl) hk
    | some w => rfl
  · rw [hred, firstKeyTemp_all_empty temps tempKeys hall]
  · rw [hred, firstKeyTemp_all_empty temps tempKeys hall]
    exact hz

/-- Witness for `cpu_temp_first_group`: with `coretemp` first and usable,
the result is that group's maximum; with no sensors the result is `none`. -/
theorem cpu_temp_first_group_witness :
    get_cpu_temperature (mkLinuxTempEnv (some tempsTwoGroups) (some [])) =
      listMax (groupVals tempsTwoGroups "coretemp")
    ∧ get_cpu_temperature (mkLinuxTempEnv (some []) (some [])) = none :=
  ⟨(cpu_temp_first_group tempsTwoGroups []).1 []
      "coretemp" ["k10temp", "zenpower", "cpu-thermal"] rfl
      (fun k1 h1 => absurd h1 (List.not_mem_nil k1)) (by decide),
   (cpu_temp_first_group [] []).2.2 (fun k _ => rfl) rfl⟩

/-- A fully healthy Linux environment except that `net_if_addrs` raises. -/
def envIfaceFail : Env :=
  { system := "Linux", osRelease := "6", osVersion := "v", cpuPercent := some 1,
    sensorsTemps := some [], thermalZones := some [], wmiAvail := false,
    msacpiTemps := none, ohmSensors := none, virtualMemory := some (2 ^ 34, 2 ^ 33),
    diskPartitions := Except.ok [], diskUsage := fun _ => none, winDisks := none,
    netIfAddrs := Except.error (), netIoCounters := some ((0, 0), (0, 0)) }

/-- C1 counterexample: `get_ip_interfaces` has no exception handler, so a
failing `net_if_addrs` query escapes `collect_system_info` as an exception
instead of degrading to a default — the aggregation does not return a
snapshot for this outcome of the sensor queries. -/
theorem collect_raises_on_ifaddrs_failure :
    collect_system_info envIfaceFail = Except.error () := rfl

lemma get_storage_info_ok (env : Env) (ps : List Partition)
    (h : env.diskPartitions = Except.ok ps) :
    ∃ r, get_storage_info env = Except.ok r := by
  unfold get_storage_info get_storage_info_fallback
  split_ifs with h1 h2
  · rw [h]; exact ⟨_, rfl⟩
  · cases env.winDisks with
    | some w => exact ⟨_, rfl⟩
    | none => rw [h]; exact ⟨_, rfl⟩
  · rw [h]; exact ⟨_, rfl⟩

lemma linuxDisksGo_all_fail (usage : String → Option (ℕ × ℕ))
    (hu : ∀ m, usage m = none) :
    ∀ (parts : List Partition) (processed : List String),
      linuxDisksGo usage parts processed = [] := by
  intro parts
  induction parts with
  | nil => intro processed; rfl
  | cons p rest ih =>
      intro processed
      simp only [linuxDisksGo, hu p.mountpoint]
      split_ifs <;> exact ih processed

lemma collect_eq (env : Env) (r : StorageInfo) (pr : List (String × String))
    (hr : get_storage_info env = Except.ok r)
    (hpairs : get_ip_interfaces env = Except.ok pr) :
    collect_system_info env = Except.ok
      { os := env.system, os_release := env.osRelease, os_version := env.osVersion,
        debian_kernel_6_12_18_trim := is_debian_kernel_special env,
        cpu := { usage_percent := get_cpu_usage env,
                 temperature_c := get_cpu_temperature env },
        memory := get_memory_usage env.virtualMemory,
        storage := r,
        network := { interfaces := pr,
                     up_mbps := (get_network_rate env.netIoCounters 1).up_mbps,
                     down_mbps := (get_network_rate env.netIoCounters 1).down_mbps } } := by
  unfold collect_system_info
  rw [hr, hpairs]

/-- C1 amended: `collect_system_info` returns a complete snapshot, with
each guarded sub-collector's failure replaced by its documented default —
zero CPU usage, zero memory, zero network rates, `none` (never zero) for a
failed temperature query on Linux and on Windows, and an empty disk list
when every per-mount usage query fails — provided the two unguarded
enumerations, the partition table and `net_if_addrs`, succeed; a failure
of either of those two propagates as an exception. -/
theorem collect_never_throws_amended :
    ∀ env : Env, (∃ ps, env.diskPartitions = Except.ok ps) →
      (∃ l, env.netIfAddrs = Except.ok l) →
      (∃ s, collect_system_info env = Except.ok s)
      ∧ (∀ s, collect_system_info env = Except.ok s →
          (env.cpuPercent = none → s.cpu.usage_percent = 0)
          ∧ (env.virtualMemory = none → s.memory = { used_gb := 0, total_gb := 0 })
          ∧ (env.netIoCounters = none →
              s.network.up_mbps = 0 ∧ s.network.down_mbps = 0)
          ∧ (env.system = "Linux" → env.sensorsTemps = none →
              s.cpu.temperature_c = none)
          ∧ (env.system = "Windows" → env.msacpiTemps = none →
              env.ohmSensors = none → s.cpu.temperature_c = none)
          ∧ (env.system = "Linux" → (∀ m, env.diskUsage m = none) →
              s.storage = { disk_count := 0, disks := [] })) := by
  intro env hps0 hl0
  obtain ⟨ps, hps⟩ := hps0
  obtain ⟨l, hl⟩ := hl0
  obtain ⟨r, hr⟩ := get_storage_info_ok env ps hps
  have hpairs0 : ∃ pr, get_ip_interfaces env = Except.ok pr := by
    unfold get_ip_interfaces
    rw [hl]
    exact ⟨_, rfl⟩
  obtain ⟨pr, hpairs⟩ := hpairs0
  have hcol := collect_eq env r pr hr hpairs
  constructor
  · exact ⟨_, hcol⟩
  · intro s hs
    rw [hcol] at hs
    have hs2 := Except.ok.inj hs
    subst hs2
    refine ⟨fun hcpu => ?_, fun hvm => ?_, fun hio => ?_,
      fun hsys hst => ?_, fun hsys hmsa hohm => ?_, fun hsys hu => ?_⟩
    · simp [get_cpu_usage, hcpu]
    · simp [get_memory_usage, hvm]
    · simp [get_network_rate, hio]
    · simp [get_cpu_temperature, hsys, hst]
    · cases hw : env.wmiAvail <;>
        simp [get_cpu_temperature, ohmBranch, hsys, hmsa, hohm, hw]
    · have hr2 : get_storage_info env =
          Except.ok (get_storage_info_linux ps env.diskUsage) := by
        simp [get_storage_info, hsys, hps]
      have hreq : r = get_storage_info_linux ps env.diskUsage :=
        Except.ok.inj (hr.symm.trans hr2)
      show r = _
      rw [hreq]
      unfold get_storage_info_linux
      rw [linuxDisksGo_all_fail env.diskUsage hu ps []]
      rfl

/-- An environment in which every guarded sensor fails and the two
unguarded enumerations return empty data. -/
def envAllFail : Env :=
  { system := "Linux", osRelease := "6", osVersion := "v", cpuPercent := none,
    sensorsTemps := none, thermalZones := none, wmiAvail := false,
    msacpiTemps := none, ohmSensors := none, virtualMemory := none,
    diskPartitions := Except.ok [], diskUsage := fun _ => none, winDisks := none,
    netIfAddrs := Except.ok [], netIoCounters := none }

/-- Witness for `collect_never_throws_amended` at `envAllFail`: the
snapshot exists and every field holds its documented default. -/
theorem collect_never_throws_witness :
    ∃ s, collect_system_info envAllFail = Except.ok s ∧
      s.cpu.usage_percent = 0 ∧ s.cpu.temperature_c = none ∧
      s.memory = { used_gb := 0, total_gb := 0 } ∧
      s.storage = { disk_count := 0, disks := [] } ∧
      s.network.up_mbps = 0 ∧ s.network.down_mbps = 0 := by
  obtain ⟨hex, hdeg⟩ := collect_never_throws_amended envAllFail ⟨[], rfl⟩ ⟨[], rfl⟩
  obtain ⟨s, hs⟩ := hex
  have h := hdeg s hs
  exact ⟨s, hs, h.1 rfl, h.2.2.2.1 rfl rfl, h.2.1 rfl,
    h.2.2.2.2.2 rfl (fun m => rfl), (h.2.2.1 rfl).1, (h.2.2.1 rfl).2⟩

end NasWeb
